import Mathlib

/-!
Verification of `datasets/Coco-Needle/split_coco_json.py`.

The script splits a COCO-style JSON document into train/val/test subsets.
We embed it shallowly:

* Image and annotation records are structures carrying the fields the script
  inspects (`id`, `image_id`, `category_id`); every other field of the record
  is collapsed into an opaque `payload` value.  Python's structural equality
  on dicts becomes Lean equality on these structures.
* The ratios are rationals; Python's `int(total * r)` (float truncation) is
  modelled as `(⌊(total : ℚ) * r⌋).toNat`, which agrees with the source for
  nonnegative ratios (the domain the script is used on; negative ratios would
  trigger Python's negative-index slicing, which is outside this model, so
  theorems that depend on slice sizes carry `0 ≤ r` hypotheses).
* Python sets (`set(...)`) are modelled as lists queried only by membership.
* The global generator of the `random` module is modelled as an explicitly
  threaded `RandomState`; `random.seed 42` replaces the ambient state by a
  fixed one and `random.shuffle` is a deterministic permutation driven by the
  state (a concrete linear-congruential stream stands in for the Mersenne
  Twister: the specification's claims depend only on the shuffle being a
  deterministic permutation and on the seeding discipline, never on the
  particular permutation produced).
* File writing is modelled by an oracle mapping a path to a write outcome
  (success, permission error, other error); `save_json` is the function the
  script defines over that oracle, and the three output files are attempted
  independently.  A run that fails the ratio assertion returns `.error`
  without touching the loader or producing any output document.
-/

/-- An image record: the `id` field the script reads, plus the rest of the
record collapsed into an opaque payload. -/
structure Image where
  id : Int
  payload : Nat
deriving DecidableEq, Repr

/-- An annotation record: `image_id` and `category_id` as read by the script,
plus the rest of the record as an opaque payload. -/
structure Annotation where
  image_id : Int
  category_id : Int
  payload : Nat
deriving DecidableEq, Repr

/-- The COCO-style document: `images`, `annotations`, and the three metadata
fields (`info`, `licenses`, `categories`) that are copied verbatim into every
output split; the metadata are opaque to the script. -/
structure Dataset where
  images : List Image
  annotations : List Annotation
  info : Nat
  licenses : Nat
  categories : Nat
deriving DecidableEq, Repr

/-- The state of the global generator of Python's `random` module. -/
structure RandomState where
  state : Nat
deriving DecidableEq, Repr

/-- Models `random.seed 42`: the ambient generator state is replaced by a
state depending only on the seed. -/
def randomSeed (n : Nat) : RandomState := ⟨n⟩

/-- One draw from the generator: a 64-bit linear-congruential step standing in
for the Mersenne Twister stream (deterministic in the state). -/
def randNext (g : RandomState) : Nat × RandomState :=
  let s := (6364136223846793005 * g.state + 1442695040888963407) % (2 ^ 64)
  (s, ⟨s⟩)

/-- Core of `random.shuffle`: repeatedly draw an index below the remaining
length, move that element to the front of the output, and recurse on the rest.
The first argument is fuel, always instantiated with the list length. -/
def shuffleGo {α : Type} : Nat → List α → RandomState → List α × RandomState
  | 0, _, g => ([], g)
  | _ + 1, [], g => ([], g)
  | n + 1, a :: rest, g =>
      let l := a :: rest
      let d := randNext g
      let j := d.1 % l.length
      let p := shuffleGo n (l.eraseIdx j) d.2
      (l.getD j a :: p.1, p.2)

/-- Models `random.shuffle items` under the threaded generator state: returns
the shuffled list and the advanced state. -/
def randomShuffle {α : Type} (items : List α) (g : RandomState) :
    List α × RandomState :=
  shuffleGo items.length items g

/-- The loop pattern used twice by the script to build its two image strata:
walk the image list, and append an image to the accumulator when it satisfies
the predicate and is not already (structurally) present in the accumulator. -/
def dedupFilterAux (p : Image → Bool) : List Image → List Image → List Image
  | [], acc => acc
  | img :: rest, acc =>
      if p img then
        if img ∈ acc then dedupFilterAux p rest acc
        else dedupFilterAux p rest (acc ++ [img])
      else dedupFilterAux p rest acc

/-- Models `cat1_image_ids`: the image ids referenced by category-0 annotations
(a Python set, modelled as a list queried by membership). -/
def cat1ImageIds (anns : List Annotation) : List Int :=
  (anns.filter (fun ann => ann.category_id == 0)).map (fun ann => ann.image_id)

/-- Models `cat2_image_ids`: the image ids referenced by category-1 annotations. -/
def cat2ImageIds (anns : List Annotation) : List Int :=
  (anns.filter (fun ann => ann.category_id == 1)).map (fun ann => ann.image_id)

/-- The test of the first stratum loop:
`_img['id'] in cat2_image_ids or _img['id'] in cat1_image_ids`. -/
def priorityTest (anns : List Annotation) (img : Image) : Bool :=
  (cat2ImageIds anns).contains img.id || (cat1ImageIds anns).contains img.id

/-- Models `cat2_images`: the priority stratum, built by the first dedup loop. -/
def cat2Images (images : List Image) (anns : List Annotation) : List Image :=
  dedupFilterAux (priorityTest anns) images []

/-- The test of the second stratum loop: `_img not in cat2_images`. -/
def otherTest (images : List Image) (anns : List Annotation) (img : Image) :
    Bool :=
  !((cat2Images images anns).contains img)

/-- Models `other_images`: the remaining stratum, built by the second dedup loop. -/
def otherImages (images : List Image) (anns : List Annotation) : List Image :=
  dedupFilterAux (otherTest images anns) images []

/-- Models `split_list(items, train_r, val_r, test_r)`: shuffle, then slice the
shuffled list as `items[:tc]`, `items[tc:tc+vc]`, `items[tc+vc:]` with
`tc = int(total * train_r)` and `vc = int(total * val_r)`.  `test_r` is
accepted and ignored, exactly as in the source.  Returns the three parts and
the generator state left behind by the shuffle. -/
def split_list (items : List Image) (train_r val_r test_r : ℚ)
    (g : RandomState) :
    (List Image × List Image × List Image) × RandomState :=
  let sh := randomShuffle items g
  let total := sh.1.length
  let train_count := (⌊(total : ℚ) * train_r⌋).toNat
  let val_count := (⌊(total : ℚ) * val_r⌋).toNat
  ((sh.1.take train_count,
    (sh.1.drop train_count).take val_count,
    sh.1.drop (train_count + val_count)), sh.2)

/-- Models `train_annotations` and friends: filter the full annotation list by
membership of `image_id` in the split's image-id set. -/
def splitAnnotations (anns : List Annotation) (imgs : List Image) :
    List Annotation :=
  anns.filter (fun ann => (imgs.map Image.id).contains ann.image_id)

/-- Models `create_output_data`: a split document reuses the input's metadata. -/
def create_output_data (data : Dataset) (imgs : List Image)
    (anns : List Annotation) : Dataset :=
  { images := imgs, annotations := anns, info := data.info,
    licenses := data.licenses, categories := data.categories }

/-- The three output documents of a run. -/
structure SplitOutput where
  train : Dataset
  val : Dataset
  test : Dataset
deriving DecidableEq, Repr

/-- The pure body of `split_coco_json` after the assertion and the load:
stratify, seed the generator with 42, split each stratum, concatenate the
per-stratum parts, re-derive each split's annotations, and assemble the three
output documents. -/
def splitResult (data : Dataset) (train_ratio val_ratio test_ratio : ℚ) :
    SplitOutput :=
  let images := data.images
  let anns := data.annotations
  let c2 := cat2Images images anns
  let oth := otherImages images anns
  let sp1 := split_list c2 train_ratio val_ratio test_ratio (randomSeed 42)
  let sp2 := split_list oth train_ratio val_ratio test_ratio sp1.2
  let train_images := sp1.1.1 ++ sp2.1.1
  let val_images := sp1.1.2.1 ++ sp2.1.2.1
  let test_images := sp1.1.2.2 ++ sp2.1.2.2
  { train := create_output_data data train_images
      (splitAnnotations anns train_images),
    val := create_output_data data val_images
      (splitAnnotations anns val_images),
    test := create_output_data data test_images
      (splitAnnotations anns test_images) }

/-- The message of the failed ratio assertion. -/
def ratioErrorMsg : String := "ratio sum must be 1"

/-- Models `split_coco_json`: the assertion on the ratio sum is evaluated first (the
Python `assert` precedes the `open`/`json.load`), so the loader — modelled as
an already-materialised `Except` value — is consulted only after the ratio
check passes.  `g0` is the ambient state of the global generator at entry; it
is discarded by `random.seed 42`.  An `.error` result models an aborted run:
no output document exists. -/
def split_coco_json (g0 : RandomState) (load : Except String Dataset)
    (train_ratio val_ratio test_ratio : ℚ) : Except String SplitOutput :=
  if |train_ratio + val_ratio + test_ratio - 1| < 1 / 1000000 then
    match load with
    | .ok data => .ok (splitResult data train_ratio val_ratio test_ratio)
    | .error e => .error e
  else .error ratioErrorMsg

/-- Outcome of one attempted file write. -/
inductive WriteOutcome
  | ok
  | permError
  | otherError
deriving DecidableEq, Repr

/-- The path separator used by `os.path.join` and `os.path.basename`. -/
def pathSep : String := "/"

/-- Models `os.path.basename`: the part of the path after the last slash. -/
def basename (path : String) : String :=
  ((path.splitOn pathSep).getLastD path)

/-- The fallback path: `os.path.join(os.path.expanduser('~'), basename p)`. -/
def fallbackPath (home path : String) : String :=
  home ++ pathSep ++ basename path

/-- Models `save_json`: try the primary path; on a permission error retry exactly
once at the home-directory fallback; on any other error report failure.
Returns the success flag and the trace of attempted paths, given the oracle
`write` describing what each write attempt would do. -/
def save_json (write : String → WriteOutcome) (home path : String) :
    Bool × List String :=
  match write path with
  | .ok => (true, [path])
  | .permError =>
      match write (fallbackPath home path) with
      | .ok => (true, [path, fallbackPath home path])
      | _ => (false, [path, fallbackPath home path])
  | .otherError => (false, [path])

/-- The save phase of the run: the three files are attempted unconditionally,
one after the other, regardless of earlier failures. -/
def saveAllThree (write : String → WriteOutcome) (home p1 p2 p3 : String) :
    List (Bool × List String) :=
  [save_json write home p1, save_json write home p2, save_json write home p3]

/-! ### Concrete sample inputs used to witness the theorems -/

/-- A small input document: five images with distinct ids; image 1 carries a
category-0 annotation, image 2 a category-1 annotation, the rest only other
categories (one category-0 annotation references the absent id 9). -/
def sampleData : Dataset :=
  { images := [⟨1, 10⟩, ⟨2, 20⟩, ⟨3, 30⟩, ⟨4, 40⟩, ⟨5, 50⟩],
    annotations := [⟨1, 0, 100⟩, ⟨2, 1, 101⟩, ⟨3, 2, 102⟩, ⟨1, 2, 103⟩,
      ⟨9, 0, 104⟩],
    info := 0, licenses := 0, categories := 0 }

/-- A small input document containing a structurally duplicated image record
(the record with id 1 and payload 10 appears twice). -/
def sampleDataDup : Dataset :=
  { images := [⟨1, 10⟩, ⟨2, 20⟩, ⟨1, 10⟩, ⟨3, 30⟩],
    annotations := [⟨1, 0, 100⟩, ⟨2, 2, 101⟩],
    info := 0, licenses := 0, categories := 0 }

/-- The home directory used in writer witnesses. -/
def sampleHome : String := "/home/user"

/-- The primary path of the train split in writer witnesses. -/
def samplePathA : String := "/data/train.json"

/-- The primary path of the val split in writer witnesses. -/
def samplePathB : String := "/data/val.json"

/-- The primary path of the test split in writer witnesses. -/
def samplePathC : String := "/data/test.json"

/-- A write oracle: permission failure on the train path, another failure on
the val path, success everywhere else (in particular on the fallback). -/
def sampleWrite (p : String) : WriteOutcome :=
  if p = samplePathA then .permError
  else if p = samplePathB then .otherError
  else .ok

/-! ### Basic lemmas about the shuffle -/

theorem getD_cons_eraseIdx_perm {α : Type} (d : α) :
    ∀ (l : List α) (j : Nat), j < l.length →
      List.Perm (l.getD j d :: l.eraseIdx j) l := by
  intro l
  induction l with
  | nil => intro j h; simp at h
  | cons a t ih =>
      intro j h
      cases j with
      | zero => simp [List.getD]
      | succ k =>
          have hk : k < t.length := by simpa using h
          simp only [List.getD_cons_succ, List.eraseIdx_cons_succ]
          exact (List.Perm.swap a (t.getD k d) (t.eraseIdx k)).trans
            (List.Perm.cons a (ih k hk))

theorem shuffleGo_perm {α : Type} :
    ∀ (n : Nat) (l : List α) (g : RandomState), l.length ≤ n →
      List.Perm (shuffleGo n l g).1 l := by
  intro n
  induction n with
  | zero =>
      intro l g h
      have : l = [] := List.eq_nil_of_length_eq_zero (Nat.le_zero.mp h)
      subst this
      simp [shuffleGo]
  | succ n ih =>
      intro l g h
      cases l with
      | nil => simp [shuffleGo]
      | cons a t =>
          have hlen : 0 < (a :: t).length := by simp
          have hj : (randNext g).1 % (a :: t).length < (a :: t).length :=
            Nat.mod_lt _ hlen
          have herase :
              ((a :: t).eraseIdx ((randNext g).1 % (a :: t).length)).length ≤ n := by
            rw [List.length_eraseIdx]
            simp only [hj, if_pos]
            simpa using Nat.le_of_succ_le_succ h
          simp only [shuffleGo]
          exact (List.Perm.cons _ (ih _ _ herase)).trans
            (getD_cons_eraseIdx_perm a (a :: t) _ hj)

theorem randomShuffle_perm {α : Type} (items : List α) (g : RandomState) :
    List.Perm (randomShuffle items g).1 items :=
  shuffleGo_perm items.length items g le_rfl

theorem randomShuffle_length {α : Type} (items : List α) (g : RandomState) :
    (randomShuffle items g).1.length = items.length :=
  (randomShuffle_perm items g).length_eq

/-! ### Lemmas about the dedup-filter loop pattern -/

theorem mem_dedupFilterAux (p : Image → Bool) :
    ∀ (l acc : List Image) (x : Image),
      x ∈ dedupFilterAux p l acc ↔ x ∈ acc ∨ (x ∈ l ∧ p x = true) := by
  intro l
  induction l with
  | nil => simp [dedupFilterAux]
  | cons img rest ih =>
      intro acc x
      by_cases hp : p img
      · by_cases hin : img ∈ acc
        · rw [dedupFilterAux, if_pos hp, if_pos hin, ih]
          by_cases hx : x = img
          · subst hx; simp [hp, hin]
          · simp [hx]
        · rw [dedupFilterAux, if_pos hp, if_neg hin, ih]
          by_cases hx : x = img
          · subst hx; simp [hp]
          · simp [hx]
      · rw [dedupFilterAux, if_neg hp, ih]
        by_cases hx : x = img
        · subst hx; simp [hp]
        · simp [hx]

theorem nodup_dedupFilterAux (p : Image → Bool) :
    ∀ (l acc : List Image), acc.Nodup → (dedupFilterAux p l acc).Nodup := by
  intro l
  induction l with
  | nil => intro acc h; simpa [dedupFilterAux] using h
  | cons img rest ih =>
      intro acc h
      by_cases hp : p img
      · by_cases hin : img ∈ acc
        · rw [dedupFilterAux, if_pos hp, if_pos hin]; exact ih acc h
        · rw [dedupFilterAux, if_pos hp, if_neg hin]
          exact ih (acc ++ [img]) (by simp [List.nodup_append, h, hin])
      · rw [dedupFilterAux, if_neg hp]; exact ih acc h

theorem dedupFilterAux_eq_append_filter (p : Image → Bool) :
    ∀ (l acc : List Image), l.Nodup → (∀ x ∈ l, x ∉ acc) →
      dedupFilterAux p l acc = acc ++ l.filter p := by
  intro l
  induction l with
  | nil => intro acc _ _; simp [dedupFilterAux]
  | cons img rest ih =>
      intro acc hnd hacc
      have hrestnd : rest.Nodup := hnd.of_cons
      have himgrest : img ∉ rest := (List.nodup_cons.mp hnd).1
      by_cases hp : p img
      · have hin : img ∉ acc := hacc img (List.mem_cons_self img rest)
        rw [dedupFilterAux, if_pos hp, if_neg hin,
          ih (acc ++ [img]) hrestnd ?_, List.filter_cons_of_pos hp]
        · simp
        · intro x hx
          simp only [List.mem_append, List.mem_singleton, not_or]
          exact ⟨hacc x (List.mem_cons_of_mem img hx),
            fun hxe => himgrest (hxe ▸ hx)⟩
      · rw [dedupFilterAux, if_neg hp, ih acc hrestnd
          (fun x hx => hacc x (List.mem_cons_of_mem img hx)),
          List.filter_cons_of_neg hp]

/-! ### Lemmas about the strata -/

theorem mem_cat2Images (images : List Image) (anns : List Annotation)
    (x : Image) :
    x ∈ cat2Images images anns ↔ x ∈ images ∧ priorityTest anns x = true := by
  simpa using mem_dedupFilterAux (priorityTest anns) images [] x

theorem mem_otherImages (images : List Image) (anns : List Annotation)
    (x : Image) :
    x ∈ otherImages images anns ↔
      x ∈ images ∧ x ∉ cat2Images images anns := by
  have h := mem_dedupFilterAux (otherTest images anns) images [] x
  simpa [otherImages, otherTest] using h

theorem nodup_cat2Images (images : List Image) (anns : List Annotation) :
    (cat2Images images anns).Nodup :=
  nodup_dedupFilterAux _ images [] List.nodup_nil

theorem nodup_otherImages (images : List Image) (anns : List Annotation) :
    (otherImages images anns).Nodup :=
  nodup_dedupFilterAux _ images [] List.nodup_nil

theorem cat2Images_eq_filter (images : List Image) (anns : List Annotation)
    (h : images.Nodup) :
    cat2Images images anns = images.filter (priorityTest anns) := by
  simpa using dedupFilterAux_eq_append_filter (priorityTest anns) images []
    h (by simp)

theorem otherImages_eq_filter (images : List Image) (anns : List Annotation)
    (h : images.Nodup) :
    otherImages images anns = images.filter (otherTest images anns) := by
  simpa using dedupFilterAux_eq_append_filter (otherTest images anns) images []
    h (by simp)

theorem strata_length (images : List Image) (anns : List Annotation)
    (h : images.Nodup) :
    (cat2Images images anns).length + (otherImages images anns).length =
      images.length := by
  rw [cat2Images_eq_filter images anns h, otherImages_eq_filter images anns h]
  have hcongr : images.filter (otherTest images anns) =
      images.filter (fun x => !(priorityTest anns x)) := by
    apply List.filter_congr
    intro x hx
    have : (x ∈ cat2Images images anns) = (priorityTest anns x = true) := by
      rw [mem_cat2Images]
      exact propext (and_iff_right hx)
    simp [otherTest, this]
  rw [hcongr, ← List.length_eq_length_filter_add]

theorem strata_count (images : List Image) (anns : List Annotation)
    (x : Image) (hx : x ∈ images) :
    (cat2Images images anns).count x + (otherImages images anns).count x
      = 1 := by
  by_cases hc : x ∈ cat2Images images anns
  · have h1 : (cat2Images images anns).count x = 1 :=
      List.count_eq_one_of_mem (nodup_cat2Images images anns) hc
    have h2 : (otherImages images anns).count x = 0 :=
      List.count_eq_zero.mpr (fun hmem =>
        ((mem_otherImages images anns x).mp hmem).2 hc)
    omega
  · have h1 : (cat2Images images anns).count x = 0 :=
      List.count_eq_zero.mpr hc
    have h2 : (otherImages images anns).count x = 1 :=
      List.count_eq_one_of_mem (nodup_otherImages images anns)
        ((mem_otherImages images anns x).mpr ⟨hx, hc⟩)
    omega

/-! ### Lemmas about `split_list` -/

theorem split_list_parts_append (items : List Image) (r1 r2 r3 : ℚ)
    (g : RandomState) :
    (split_list items r1 r2 r3 g).1.1 ++ (split_list items r1 r2 r3 g).1.2.1
      ++ (split_list items r1 r2 r3 g).1.2.2 = (randomShuffle items g).1 := by
  simp only [split_list]
  rw [List.append_assoc]
  have h1 := List.take_append_drop
    ((⌊((randomShuffle items g).1.length : ℚ) * r2⌋).toNat)
    ((randomShuffle items g).1.drop
      ((⌊((randomShuffle items g).1.length : ℚ) * r1⌋).toNat))
  rw [List.drop_drop] at h1
  rw [h1, List.take_append_drop]

theorem split_list_parts_perm (items : List Image) (r1 r2 r3 : ℚ)
    (g : RandomState) :
    List.Perm ((split_list items r1 r2 r3 g).1.1
      ++ (split_list items r1 r2 r3 g).1.2.1
      ++ (split_list items r1 r2 r3 g).1.2.2) items := by
  rw [split_list_parts_append]
  exact randomShuffle_perm items g

theorem split_list_length_sum (items : List Image) (r1 r2 r3 : ℚ)
    (g : RandomState) :
    (split_list items r1 r2 r3 g).1.1.length
      + (split_list items r1 r2 r3 g).1.2.1.length
      + (split_list items r1 r2 r3 g).1.2.2.length = items.length := by
  have h := (split_list_parts_perm items r1 r2 r3 g).length_eq
  simpa [Nat.add_assoc] using h

theorem split_list_count (items : List Image) (r1 r2 r3 : ℚ)
    (g : RandomState) (x : Image) :
    (split_list items r1 r2 r3 g).1.1.count x
      + (split_list items r1 r2 r3 g).1.2.1.count x
      + (split_list items r1 r2 r3 g).1.2.2.count x = items.count x := by
  have h := (split_list_parts_perm items r1 r2 r3 g).count_eq x
  simpa [List.count_append, Nat.add_assoc] using h

/-! ### Unfolding lemmas for the assembled run -/

theorem split_ok (g : RandomState) (data : Dataset) (r1 r2 r3 : ℚ)
    (out : SplitOutput)
    (hok : split_coco_json g (.ok data) r1 r2 r3 = .ok out) :
    out = splitResult data r1 r2 r3 := by
  by_cases h : |r1 + r2 + r3 - 1| < 1 / 1000000
  · simp only [split_coco_json, if_pos h] at hok
    exact (Except.ok.inj hok).symm
  · unfold split_coco_json at hok
    rw [if_neg h] at hok
    simp at hok

theorem splitResult_train_images (data : Dataset) (r1 r2 r3 : ℚ) :
    (splitResult data r1 r2 r3).train.images =
      (split_list (cat2Images data.images data.annotations) r1 r2 r3
        (randomSeed 42)).1.1 ++
      (split_list (otherImages data.images data.annotations) r1 r2 r3
        (split_list (cat2Images data.images data.annotations) r1 r2 r3
          (randomSeed 42)).2).1.1 := rfl

theorem splitResult_val_images (data : Dataset) (r1 r2 r3 : ℚ) :
    (splitResult data r1 r2 r3).val.images =
      (split_list (cat2Images data.images data.annotations) r1 r2 r3
        (randomSeed 42)).1.2.1 ++
      (split_list (otherImages data.images data.annotations) r1 r2 r3
        (split_list (cat2Images data.images data.annotations) r1 r2 r3
          (randomSeed 42)).2).1.2.1 := rfl

theorem splitResult_test_images (data : Dataset) (r1 r2 r3 : ℚ) :
    (splitResult data r1 r2 r3).test.images =
      (split_list (cat2Images data.images data.annotations) r1 r2 r3
        (randomSeed 42)).1.2.2 ++
      (split_list (otherImages data.images data.annotations) r1 r2 r3
        (split_list (cat2Images data.images data.annotations) r1 r2 r3
          (randomSeed 42)).2).1.2.2 := rfl

theorem splitResult_train_annotations (data : Dataset) (r1 r2 r3 : ℚ) :
    (splitResult data r1 r2 r3).train.annotations =
      splitAnnotations data.annotations
        (splitResult data r1 r2 r3).train.images := rfl

theorem splitResult_val_annotations (data : Dataset) (r1 r2 r3 : ℚ) :
    (splitResult data r1 r2 r3).val.annotations =
      splitAnnotations data.annotations
        (splitResult data r1 r2 r3).val.images := rfl

theorem splitResult_test_annotations (data : Dataset) (r1 r2 r3 : ℚ) :
    (splitResult data r1 r2 r3).test.annotations =
      splitAnnotations data.annotations
        (splitResult data r1 r2 r3).test.images := rfl

theorem mem_splitAnnotations (anns : List Annotation) (imgs : List Image)
    (ann : Annotation) :
    ann ∈ splitAnnotations anns imgs ↔
      ann ∈ anns ∧ ann.image_id ∈ imgs.map Image.id := by
  simp [splitAnnotations]

theorem splitAnnotations_ref (anns : List Annotation) (imgs : List Image) :
    ∀ ann ∈ splitAnnotations anns imgs,
      ∃ img ∈ imgs, img.id = ann.image_id := by
  intro ann h
  obtain ⟨img, himg, hid⟩ :=
    List.mem_map.mp ((mem_splitAnnotations anns imgs ann).mp h).2
  exact ⟨img, himg, hid⟩

theorem split_ok_sample :
    split_coco_json ⟨0⟩ (.ok sampleData) (8/10) (1/10) (1/10) =
      .ok (splitResult sampleData (8/10) (1/10) (1/10)) := by
  unfold split_coco_json
  rw [if_pos (by norm_num)]

theorem split_ok_sampleDup :
    split_coco_json ⟨0⟩ (.ok sampleDataDup) (8/10) (1/10) (1/10) =
      .ok (splitResult sampleDataDup (8/10) (1/10) (1/10)) := by
  unfold split_coco_json
  rw [if_pos (by norm_num)]

/-! ### Claim theorems -/

/-- C1: for every valid input dataset, every annotation record placed in an
output split's annotations list has an `image_id` that is the id of some image
record present in that same split's images list (train, val and test). -/
theorem split_annotations_reference_split_images (g : RandomState)
    (data : Dataset) (r1 r2 r3 : ℚ) (out : SplitOutput)
    (hok : split_coco_json g (.ok data) r1 r2 r3 = .ok out) :
    (∀ ann ∈ out.train.annotations,
      ∃ img ∈ out.train.images, img.id = ann.image_id) ∧
    (∀ ann ∈ out.val.annotations,
      ∃ img ∈ out.val.images, img.id = ann.image_id) ∧
    (∀ ann ∈ out.test.annotations,
      ∃ img ∈ out.test.images, img.id = ann.image_id) := by
  obtain rfl := split_ok g data r1 r2 r3 out hok
  exact ⟨splitAnnotations_ref _ _, splitAnnotations_ref _ _,
    splitAnnotations_ref _ _⟩

/-- Witness for C1 at a concrete run of the splitter. -/
theorem split_annotations_reference_split_images_witness :
    (∀ ann ∈ (splitResult sampleData (8/10) (1/10) (1/10)).train.annotations,
      ∃ img ∈ (splitResult sampleData (8/10) (1/10) (1/10)).train.images,
        img.id = ann.image_id) ∧
    (∀ ann ∈ (splitResult sampleData (8/10) (1/10) (1/10)).val.annotations,
      ∃ img ∈ (splitResult sampleData (8/10) (1/10) (1/10)).val.images,
        img.id = ann.image_id) ∧
    (∀ ann ∈ (splitResult sampleData (8/10) (1/10) (1/10)).test.annotations,
      ∃ img ∈ (splitResult sampleData (8/10) (1/10) (1/10)).test.images,
        img.id = ann.image_id) :=
  split_annotations_reference_split_images ⟨0⟩ sampleData (8/10) (1/10)
    (1/10) (splitResult sampleData (8/10) (1/10) (1/10)) split_ok_sample

/-- C4: a ratio triple off by at least 1e-6 makes the run fail with the
assertion message, for any loader outcome (hence before any input is read and
with no output produced); a triple within the tolerance passes the check and
the run produces its three documents. -/
theorem ratio_precondition_fail_fast (g : RandomState)
    (load : Except String Dataset) (r1 r2 r3 : ℚ) :
    (¬ |r1 + r2 + r3 - 1| < 1 / 1000000 →
      split_coco_json g load r1 r2 r3 = .error ratioErrorMsg) ∧
    (|r1 + r2 + r3 - 1| < 1 / 1000000 → ∀ data : Dataset,
      split_coco_json g (.ok data) r1 r2 r3 =
        .ok (splitResult data r1 r2 r3)) := by
  constructor
  · intro h
    unfold split_coco_json
    rw [if_neg h]
  · intro h data
    unfold split_coco_json
    rw [if_pos h]

/-- Witness for C4: ratios 0.8/0.1/0.05 are rejected, 0.8/0.1/0.1 pass. -/
theorem ratio_precondition_fail_fast_witness :
    split_coco_json ⟨0⟩ (.ok sampleData) (8/10) (1/10) (5/100) =
      .error ratioErrorMsg ∧
    split_coco_json ⟨0⟩ (.ok sampleData) (8/10) (1/10) (1/10) =
      .ok (splitResult sampleData (8/10) (1/10) (1/10)) :=
  ⟨(ratio_precondition_fail_fast ⟨0⟩ (.ok sampleData) (8/10) (1/10)
      (5/100)).1 (by rw [not_lt, le_abs]; right; norm_num),
   (ratio_precondition_fail_fast ⟨0⟩ (.ok sampleData) (8/10) (1/10)
      (1/10)).2 (by norm_num) sampleData⟩

/-- C5: the run is a deterministic function of the input document and the
ratios: the ambient state of the global generator at entry is irrelevant,
because the generator is re-seeded with the constant 42 before any shuffling,
so two runs on the same input produce the same three documents. -/
theorem split_run_deterministic (g1 g2 : RandomState)
    (load : Except String Dataset) (r1 r2 r3 : ℚ) :
    split_coco_json g1 load r1 r2 r3 = split_coco_json g2 load r1 r2 r3 := rfl

/-- C6: each split's annotations list is the stable filter of the full input
annotation list by membership of `image_id` in that split's image-id set: a
sublist (hence in original relative order) containing exactly the annotations
whose `image_id` occurs among the split's image ids. -/
theorem split_annotations_stable_filter (g : RandomState) (data : Dataset)
    (r1 r2 r3 : ℚ) (out : SplitOutput)
    (hok : split_coco_json g (.ok data) r1 r2 r3 = .ok out) :
    (out.train.annotations.Sublist data.annotations ∧
      ∀ ann : Annotation, ann ∈ out.train.annotations ↔
        ann ∈ data.annotations ∧
          ann.image_id ∈ out.train.images.map Image.id) ∧
    (out.val.annotations.Sublist data.annotations ∧
      ∀ ann : Annotation, ann ∈ out.val.annotations ↔
        ann ∈ data.annotations ∧
          ann.image_id ∈ out.val.images.map Image.id) ∧
    (out.test.annotations.Sublist data.annotations ∧
      ∀ ann : Annotation, ann ∈ out.test.annotations ↔
        ann ∈ data.annotations ∧
          ann.image_id ∈ out.test.images.map Image.id) := by
  obtain rfl := split_ok g data r1 r2 r3 out hok
  exact ⟨⟨List.filter_sublist _, fun ann => mem_splitAnnotations _ _ ann⟩,
    ⟨List.filter_sublist _, fun ann => mem_splitAnnotations _ _ ann⟩,
    ⟨List.filter_sublist _, fun ann => mem_splitAnnotations _ _ ann⟩⟩

/-- Witness for C6 at a concrete run of the splitter. -/
theorem split_annotations_stable_filter_witness :
    (splitResult sampleData (8/10) (1/10) (1/10)).train.annotations.Sublist
      sampleData.annotations ∧
    ∀ ann : Annotation,
      ann ∈ (splitResult sampleData (8/10) (1/10) (1/10)).train.annotations ↔
        ann ∈ sampleData.annotations ∧ ann.image_id ∈
          (splitResult sampleData (8/10) (1/10) (1/10)).train.images.map
            Image.id :=
  (split_annotations_stable_filter ⟨0⟩ sampleData (8/10) (1/10) (1/10)
    (splitResult sampleData (8/10) (1/10) (1/10)) split_ok_sample).1

theorem split_list_part1_eq (items : List Image) (r1 r2 r3 : ℚ)
    (g : RandomState) :
    (split_list items r1 r2 r3 g).1.1 =
      (randomShuffle items g).1.take ((⌊(items.length : ℚ) * r1⌋).toNat) := by
  simp only [split_list, randomShuffle_length]

theorem split_list_part2_eq (items : List Image) (r1 r2 r3 : ℚ)
    (g : RandomState) :
    (split_list items r1 r2 r3 g).1.2.1 =
      ((randomShuffle items g).1.drop
        ((⌊(items.length : ℚ) * r1⌋).toNat)).take
        ((⌊(items.length : ℚ) * r2⌋).toNat) := by
  simp only [split_list, randomShuffle_length]

theorem split_list_part3_eq (items : List Image) (r1 r2 r3 : ℚ)
    (g : RandomState) :
    (split_list items r1 r2 r3 g).1.2.2 =
      (randomShuffle items g).1.drop
        ((⌊(items.length : ℚ) * r1⌋).toNat +
          (⌊(items.length : ℚ) * r2⌋).toNat) := by
  simp only [split_list, randomShuffle_length]

theorem split_list_state_eq (items : List Image) (r1 r2 r3 : ℚ)
    (g : RandomState) :
    (split_list items r1 r2 r3 g).2 = (randomShuffle items g).2 := rfl

/-- C2: when no image record appears more than once by identifier (which also
rules out structurally identical records), the three output image lists
together have exactly as many images as the input. -/
theorem split_images_length_partition (g : RandomState) (data : Dataset)
    (r1 r2 r3 : ℚ) (out : SplitOutput)
    (h1 : 0 ≤ r1) (h2 : 0 ≤ r2) (h3 : 0 ≤ r3)
    (hnodup : (data.images.map Image.id).Nodup)
    (hok : split_coco_json g (.ok data) r1 r2 r3 = .ok out) :
    out.train.images.length + out.val.images.length +
      out.test.images.length = data.images.length := by
  obtain rfl := split_ok g data r1 r2 r3 out hok
  rw [splitResult_train_images, splitResult_val_images,
    splitResult_test_images]
  simp only [List.length_append]
  have hA := split_list_length_sum (cat2Images data.images data.annotations)
    r1 r2 r3 (randomSeed 42)
  have hB := split_list_length_sum (otherImages data.images data.annotations)
    r1 r2 r3
    (split_list (cat2Images data.images data.annotations) r1 r2 r3
      (randomSeed 42)).2
  have hS := strata_length data.images data.annotations
    (List.Nodup.of_map _ hnodup)
  omega

/-- Witness for C2 at a concrete run of the splitter. -/
theorem split_images_length_partition_witness :
    (splitResult sampleData (8/10) (1/10) (1/10)).train.images.length +
      (splitResult sampleData (8/10) (1/10) (1/10)).val.images.length +
      (splitResult sampleData (8/10) (1/10) (1/10)).test.images.length =
      sampleData.images.length :=
  split_images_length_partition ⟨0⟩ sampleData (8/10) (1/10) (1/10)
    (splitResult sampleData (8/10) (1/10) (1/10)) (by norm_num) (by norm_num)
    (by norm_num) (by decide) split_ok_sample

/-- C3: `split_list` assigns the first `floor(total * train_r)` post-shuffle
items to train, the next `floor(total * val_r)` to val, and all remaining
`total - train_count - val_count` items to test; the three parts recompose
the shuffled list, the two counts are true floors (for nonnegative ratios),
and the test ratio is never consulted (test is the remainder, not rounded
independently). -/
theorem split_list_floor_remainder_policy (items : List Image)
    (r1 r2 r3 r3' : ℚ) (g : RandomState) (h1 : 0 ≤ r1) (h2 : 0 ≤ r2) :
    ((split_list items r1 r2 r3 g).1.1 =
      (randomShuffle items g).1.take ((⌊(items.length : ℚ) * r1⌋).toNat)) ∧
    ((split_list items r1 r2 r3 g).1.2.1 =
      ((randomShuffle items g).1.drop
        ((⌊(items.length : ℚ) * r1⌋).toNat)).take
        ((⌊(items.length : ℚ) * r2⌋).toNat)) ∧
    ((split_list items r1 r2 r3 g).1.2.2 =
      (randomShuffle items g).1.drop
        ((⌊(items.length : ℚ) * r1⌋).toNat +
          (⌊(items.length : ℚ) * r2⌋).toNat)) ∧
    ((split_list items r1 r2 r3 g).1.1 ++ (split_list items r1 r2 r3 g).1.2.1
      ++ (split_list items r1 r2 r3 g).1.2.2 = (randomShuffle items g).1) ∧
    ((⌊(items.length : ℚ) * r1⌋).toNat + (⌊(items.length : ℚ) * r2⌋).toNat ≤
        items.length →
      (split_list items r1 r2 r3 g).1.2.2.length =
        items.length - (⌊(items.length : ℚ) * r1⌋).toNat -
          (⌊(items.length : ℚ) * r2⌋).toNat) ∧
    (((⌊(items.length : ℚ) * r1⌋).toNat : ℤ) = ⌊(items.length : ℚ) * r1⌋ ∧
      ((⌊(items.length : ℚ) * r2⌋).toNat : ℤ) = ⌊(items.length : ℚ) * r2⌋) ∧
    split_list items r1 r2 r3 g = split_list items r1 r2 r3' g := by
  refine ⟨split_list_part1_eq items r1 r2 r3 g,
    split_list_part2_eq items r1 r2 r3 g,
    split_list_part3_eq items r1 r2 r3 g,
    split_list_parts_append items r1 r2 r3 g, ?_, ⟨?_, ?_⟩, rfl⟩
  · intro hle
    rw [split_list_part3_eq items r1 r2 r3 g, List.length_drop,
      randomShuffle_length]
    omega
  · exact Int.toNat_of_nonneg
      (Int.floor_nonneg.mpr (mul_nonneg (Nat.cast_nonneg _) h1))
  · exact Int.toNat_of_nonneg
      (Int.floor_nonneg.mpr (mul_nonneg (Nat.cast_nonneg _) h2))

/-- Witness for C3: with concrete inputs, the test ratio is irrelevant. -/
theorem split_list_floor_remainder_policy_witness :
    split_list sampleData.images (8/10) (1/10) (1/10) ⟨0⟩ =
      split_list sampleData.images (8/10) (1/10) (9/10) ⟨0⟩ :=
  (split_list_floor_remainder_policy sampleData.images (8/10) (1/10) (1/10)
    (9/10) ⟨0⟩ (by norm_num) (by norm_num)).2.2.2.2.2.2

/-- C7: each output image list is the priority-stratum part followed by the
other-stratum part, each part a slice of its stratum's post-shuffle order
(the other stratum is shuffled with the generator state left by the priority
stratum's shuffle). -/
theorem split_images_stratum_concat (g : RandomState) (data : Dataset)
    (r1 r2 r3 : ℚ) (out : SplitOutput) (h1 : 0 ≤ r1) (h2 : 0 ≤ r2)
    (hok : split_coco_json g (.ok data) r1 r2 r3 = .ok out) :
    out.train.images =
      (randomShuffle (cat2Images data.images data.annotations)
        (randomSeed 42)).1.take
        ((⌊((cat2Images data.images data.annotations).length : ℚ) *
          r1⌋).toNat) ++
      (randomShuffle (otherImages data.images data.annotations)
        (randomShuffle (cat2Images data.images data.annotations)
          (randomSeed 42)).2).1.take
        ((⌊((otherImages data.images data.annotations).length : ℚ) *
          r1⌋).toNat) ∧
    out.val.images =
      ((randomShuffle (cat2Images data.images data.annotations)
        (randomSeed 42)).1.drop
        ((⌊((cat2Images data.images data.annotations).length : ℚ) *
          r1⌋).toNat)).take
        ((⌊((cat2Images data.images data.annotations).length : ℚ) *
          r2⌋).toNat) ++
      ((randomShuffle (otherImages data.images data.annotations)
        (randomShuffle (cat2Images data.images data.annotations)
          (randomSeed 42)).2).1.drop
        ((⌊((otherImages data.images data.annotations).length : ℚ) *
          r1⌋).toNat)).take
        ((⌊((otherImages data.images data.annotations).length : ℚ) *
          r2⌋).toNat) ∧
    out.test.images =
      (randomShuffle (cat2Images data.images data.annotations)
        (randomSeed 42)).1.drop
        ((⌊((cat2Images data.images data.annotations).length : ℚ) *
          r1⌋).toNat +
          (⌊((cat2Images data.images data.annotations).length : ℚ) *
            r2⌋).toNat) ++
      (randomShuffle (otherImages data.images data.annotations)
        (randomShuffle (cat2Images data.images data.annotations)
          (randomSeed 42)).2).1.drop
        ((⌊((otherImages data.images data.annotations).length : ℚ) *
          r1⌋).toNat +
          (⌊((otherImages data.images data.annotations).length : ℚ) *
            r2⌋).toNat) := by
  obtain rfl := split_ok g data r1 r2 r3 out hok
  refine ⟨?_, ?_, ?_⟩
  · rw [splitResult_train_images, split_list_part1_eq, split_list_part1_eq,
      split_list_state_eq]
  · rw [splitResult_val_images, split_list_part2_eq, split_list_part2_eq,
      split_list_state_eq]
  · rw [splitResult_test_images, split_list_part3_eq, split_list_part3_eq,
      split_list_state_eq]

/-- Witness for C7: the concrete train list is the concatenation of the two
stratum slices. -/
theorem split_images_stratum_concat_witness :
    (splitResult sampleData (8/10) (1/10) (1/10)).train.images =
      (randomShuffle (cat2Images sampleData.images sampleData.annotations)
        (randomSeed 42)).1.take
        ((⌊((cat2Images sampleData.images sampleData.annotations).length : ℚ)
          * (8/10)⌋).toNat) ++
      (randomShuffle (otherImages sampleData.images sampleData.annotations)
        (randomShuffle (cat2Images sampleData.images sampleData.annotations)
          (randomSeed 42)).2).1.take
        ((⌊((otherImages sampleData.images sampleData.annotations).length : ℚ)
          * (8/10)⌋).toNat) :=
  (split_images_stratum_concat ⟨0⟩ sampleData (8/10) (1/10) (1/10)
    (splitResult sampleData (8/10) (1/10) (1/10)) (by norm_num) (by norm_num)
    split_ok_sample).1

theorem splitResult_images_count (data : Dataset) (r1 r2 r3 : ℚ)
    (x : Image) :
    ((splitResult data r1 r2 r3).train.images ++
      (splitResult data r1 r2 r3).val.images ++
      (splitResult data r1 r2 r3).test.images).count x =
    (cat2Images data.images data.annotations).count x +
      (otherImages data.images data.annotations).count x := by
  rw [splitResult_train_images, splitResult_val_images,
    splitResult_test_images]
  simp only [List.count_append]
  have hA := split_list_count (cat2Images data.images data.annotations)
    r1 r2 r3 (randomSeed 42) x
  have hB := split_list_count (otherImages data.images data.annotations)
    r1 r2 r3
    (split_list (cat2Images data.images data.annotations) r1 r2 r3
      (randomSeed 42)).2 x
  omega

theorem splitResult_images_perm (data : Dataset) (r1 r2 r3 : ℚ) :
    List.Perm
      ((splitResult data r1 r2 r3).train.images ++
        (splitResult data r1 r2 r3).val.images ++
        (splitResult data r1 r2 r3).test.images)
      (cat2Images data.images data.annotations ++
        otherImages data.images data.annotations) := by
  rw [List.perm_iff_count]
  intro x
  rw [splitResult_images_count data r1 r2 r3 x, List.count_append]

theorem strata_ids_nodup (images : List Image) (anns : List Annotation)
    (hnodup : (images.map Image.id).Nodup) :
    ((cat2Images images anns ++ otherImages images anns).map
      Image.id).Nodup := by
  have himg : images.Nodup := List.Nodup.of_map _ hnodup
  rw [List.map_append, List.nodup_append]
  refine ⟨?_, ?_, ?_⟩
  · rw [cat2Images_eq_filter images anns himg]
    exact hnodup.sublist (List.Sublist.map _ (List.filter_sublist _))
  · rw [otherImages_eq_filter images anns himg]
    exact hnodup.sublist (List.Sublist.map _ (List.filter_sublist _))
  · intro i hi1 hi2
    obtain ⟨x, hx, hxi⟩ := List.mem_map.mp hi1
    obtain ⟨y, hy, hyi⟩ := List.mem_map.mp hi2
    have hxy : x = y :=
      List.inj_on_of_nodup_map hnodup
        ((mem_cat2Images images anns x).mp hx).1
        ((mem_otherImages images anns y).mp hy).1 (by rw [hxi, hyi])
    exact ((mem_otherImages images anns y).mp hy).2 (hxy ▸ hx)

theorem splitResult_ids_nodup (data : Dataset) (r1 r2 r3 : ℚ)
    (hnodup : (data.images.map Image.id).Nodup) :
    (((splitResult data r1 r2 r3).train.images ++
      (splitResult data r1 r2 r3).val.images ++
      (splitResult data r1 r2 r3).test.images).map Image.id).Nodup :=
  ((splitResult_images_perm data r1 r2 r3).map Image.id).nodup_iff.mpr
    (strata_ids_nodup data.images data.annotations hnodup)

/-- C9: structurally duplicated image records are collapsed during
stratification: a record occurring at least twice in the input is placed into
the strata exactly once, hence occurs exactly once across the three output
image lists together. -/
theorem duplicate_images_single_occurrence (g : RandomState) (data : Dataset)
    (r1 r2 r3 : ℚ) (out : SplitOutput)
    (h1 : 0 ≤ r1) (h2 : 0 ≤ r2) (h3 : 0 ≤ r3)
    (hok : split_coco_json g (.ok data) r1 r2 r3 = .ok out)
    (img : Image) (hdup : 2 ≤ data.images.count img) :
    ((cat2Images data.images data.annotations).count img +
      (otherImages data.images data.annotations).count img = 1) ∧
    (out.train.images ++ out.val.images ++ out.test.images).count img
      = 1 := by
  obtain rfl := split_ok g data r1 r2 r3 out hok
  have hmem : img ∈ data.images := by
    have hpos : 0 < data.images.count img := by omega
    exact List.count_pos_iff.mp hpos
  refine ⟨strata_count data.images data.annotations img hmem, ?_⟩
  rw [splitResult_images_count]
  exact strata_count data.images data.annotations img hmem

/-- Witness for C9 on an input with a duplicated image record. -/
theorem duplicate_images_single_occurrence_witness :
    ((cat2Images sampleDataDup.images sampleDataDup.annotations).count
        ⟨1, 10⟩ +
      (otherImages sampleDataDup.images sampleDataDup.annotations).count
        ⟨1, 10⟩ = 1) ∧
    ((splitResult sampleDataDup (8/10) (1/10) (1/10)).train.images ++
      (splitResult sampleDataDup (8/10) (1/10) (1/10)).val.images ++
      (splitResult sampleDataDup (8/10) (1/10) (1/10)).test.images).count
        ⟨1, 10⟩ = 1 :=
  duplicate_images_single_occurrence ⟨0⟩ sampleDataDup (8/10) (1/10) (1/10)
    (splitResult sampleDataDup (8/10) (1/10) (1/10)) (by norm_num)
    (by norm_num) (by norm_num) split_ok_sampleDup ⟨1, 10⟩ (by decide)

/-- C10: with pairwise-distinct image ids, the three splits' image-id sets
are pairwise disjoint, and consequently no annotation occurs in more than one
split's annotations list. -/
theorem distinct_ids_disjoint_splits (g : RandomState) (data : Dataset)
    (r1 r2 r3 : ℚ) (out : SplitOutput)
    (h1 : 0 ≤ r1) (h2 : 0 ≤ r2) (h3 : 0 ≤ r3)
    (hnodup : (data.images.map Image.id).Nodup)
    (hok : split_coco_json g (.ok data) r1 r2 r3 = .ok out) :
    (∀ i : Int,
      ¬(i ∈ out.train.images.map Image.id ∧
        i ∈ out.val.images.map Image.id) ∧
      ¬(i ∈ out.train.images.map Image.id ∧
        i ∈ out.test.images.map Image.id) ∧
      ¬(i ∈ out.val.images.map Image.id ∧
        i ∈ out.test.images.map Image.id)) ∧
    (∀ ann : Annotation,
      ¬(ann ∈ out.train.annotations ∧ ann ∈ out.val.annotations) ∧
      ¬(ann ∈ out.train.annotations ∧ ann ∈ out.test.annotations) ∧
      ¬(ann ∈ out.val.annotations ∧ ann ∈ out.test.annotations)) := by
  obtain rfl := split_ok g data r1 r2 r3 out hok
  have hnd := splitResult_ids_nodup data r1 r2 r3 hnodup
  rw [List.map_append, List.map_append] at hnd
  obtain ⟨hAB, hC, hABC⟩ := List.nodup_append.mp hnd
  obtain ⟨hA, hB, hABd⟩ := List.nodup_append.mp hAB
  have hACd : ∀ i, i ∈ (splitResult data r1 r2 r3).train.images.map Image.id →
      i ∈ (splitResult data r1 r2 r3).test.images.map Image.id → False :=
    fun i ha hc => hABC (List.mem_append_left _ ha) hc
  have hBCd : ∀ i, i ∈ (splitResult data r1 r2 r3).val.images.map Image.id →
      i ∈ (splitResult data r1 r2 r3).test.images.map Image.id → False :=
    fun i hb hc => hABC (List.mem_append_right _ hb) hc
  refine ⟨fun i => ⟨fun h => hABd h.1 h.2, fun h => hACd i h.1 h.2,
    fun h => hBCd i h.1 h.2⟩, fun ann => ⟨?_, ?_, ?_⟩⟩
  · intro h
    exact hABd ((mem_splitAnnotations _ _ ann).mp h.1).2
      ((mem_splitAnnotations _ _ ann).mp h.2).2
  · intro h
    exact hACd ann.image_id ((mem_splitAnnotations _ _ ann).mp h.1).2
      ((mem_splitAnnotations _ _ ann).mp h.2).2
  · intro h
    exact hBCd ann.image_id ((mem_splitAnnotations _ _ ann).mp h.1).2
      ((mem_splitAnnotations _ _ ann).mp h.2).2

/-- Witness for C10: on the sample input, image id 1 is not in both train and
val, and the annotation referencing image 1 is not in both train and val. -/
theorem distinct_ids_disjoint_splits_witness :
    ¬((1 : Int) ∈
        (splitResult sampleData (8/10) (1/10) (1/10)).train.images.map
          Image.id ∧
      (1 : Int) ∈
        (splitResult sampleData (8/10) (1/10) (1/10)).val.images.map
          Image.id) ∧
    ¬((⟨1, 0, 100⟩ : Annotation) ∈
        (splitResult sampleData (8/10) (1/10) (1/10)).train.annotations ∧
      (⟨1, 0, 100⟩ : Annotation) ∈
        (splitResult sampleData (8/10) (1/10) (1/10)).val.annotations) :=
  ⟨((distinct_ids_disjoint_splits ⟨0⟩ sampleData (8/10) (1/10) (1/10)
      (splitResult sampleData (8/10) (1/10) (1/10)) (by norm_num)
      (by norm_num) (by norm_num) (by decide) split_ok_sample).1 1).1,
   ((distinct_ids_disjoint_splits ⟨0⟩ sampleData (8/10) (1/10) (1/10)
      (splitResult sampleData (8/10) (1/10) (1/10)) (by norm_num)
      (by norm_num) (by norm_num) (by decide) split_ok_sample).2
      ⟨1, 0, 100⟩).1⟩

/-- C8: on a permission error at the primary path the writer retries exactly
once at the home-directory fallback built from the original base name, and
succeeds exactly when that fallback write succeeds; a successful primary
write attempts nothing else; any other primary failure is reported without a
fallback attempt; and the three output files are attempted independently of
one another's outcomes. -/
theorem save_json_fallback_policy (write : String → WriteOutcome)
    (home path p1 p2 p3 : String) :
    (write path = .permError →
      save_json write home path =
        (write (fallbackPath home path) == .ok,
         [path, fallbackPath home path])) ∧
    (write path = .ok → save_json write home path = (true, [path])) ∧
    (write path = .otherError →
      save_json write home path = (false, [path])) ∧
    saveAllThree write home p1 p2 p3 =
      [save_json write home p1, save_json write home p2,
       save_json write home p3] := by
  refine ⟨?_, ?_, ?_, rfl⟩
  · intro h
    cases hfb : write (fallbackPath home path) <;>
      simp [save_json, h, hfb]
  · intro h
    simp [save_json, h]
  · intro h
    simp [save_json, h]

/-- Witness for C8 with a concrete write oracle: permission failure on the
train path falls back to the home path, other failure on the val path is
final, and the test path succeeds directly. -/
theorem save_json_fallback_policy_witness :
    save_json sampleWrite sampleHome samplePathA =
      (sampleWrite (fallbackPath sampleHome samplePathA) == .ok,
       [samplePathA, fallbackPath sampleHome samplePathA]) ∧
    save_json sampleWrite sampleHome samplePathB = (false, [samplePathB]) ∧
    save_json sampleWrite sampleHome samplePathC = (true, [samplePathC]) :=
  ⟨(save_json_fallback_policy sampleWrite sampleHome samplePathA samplePathA
      samplePathB samplePathC).1 (by simp [sampleWrite]),
   (save_json_fallback_policy sampleWrite sampleHome samplePathB samplePathA
      samplePathB samplePathC).2.2.1 (by simp [sampleWrite, samplePathA,
        samplePathB]),
   (save_json_fallback_policy sampleWrite sampleHome samplePathC samplePathA
      samplePathB samplePathC).2.1 (by simp [sampleWrite, samplePathA,
        samplePathB, samplePathC])⟩
